import Mathlib

/-!
Verification of the `health_checker` repository (SausageSizzler/CICD).

Shallow embedding of the Python modules under `src/health_checker/`:

* `utils.py` — `query_parser`, `threshold_checker`, `get_current_UTC_date`,
  `prior_day_calls`, `generate_exp_times`;
* `database.py` — `init_pool`, the `get_conn` context manager;
* `notification.py` — `publish_to_topic`;
* `config.py` — `ACCEPTABLE_ERROR_THRESHOLD`, `EMAIL_TOPIC_ARN`,
  `FUNCTIONS_TO_CHECK`;
* `main.py` — `handler`.

Modelling conventions:

* An audit-table row (a Python dict fetched from MySQL) becomes the
  structure `Row`; only the keys used by the code are modelled.
* Python float arithmetic on error rates is modelled with exact
  rationals (`ℚ`); the numbers involved are small integer quotients
  compared with 0.8, where double rounding cannot change any of the
  comparisons stated below.
* Python exceptions are modelled with `Except`: a function that can
  raise returns `Except PyError α`, and the exception kind is recorded
  in `PyError`.
* UTC calendar dates are modelled as natural numbers counting days;
  `datetime.now(timezone.utc)` becomes an explicit `today : Nat`
  parameter, and subtracting `timedelta(days=1)` becomes `today - 1`.
* `str.upper` is modelled by `pyUpper`, uppercasing character by
  character; the status strings the code compares against are ASCII,
  where the two functions agree.
* Effects on the external world (queries, `sns.publish`) are modelled
  by explicit environment parameters and by returning the records of
  the calls that were made.
-/

/-- Exception kinds raised by the embedded code. `zeroDivisionError` is
Python's `ZeroDivisionError` (from `len(errored)/len(result)` on an empty
result), `notImplementedError` is `NotImplementedError`,
`indexError`/`valueError` arise from `parts[1]` and tuple unpacking in
`generate_exp_times`, `databaseError` is the repo's `DatabaseError`, and
`otherError` stands for any other propagating exception. -/
inductive PyError where
  | zeroDivisionError
  | notImplementedError
  | indexError
  | valueError
  | databaseError
  | otherError
deriving DecidableEq, Repr

/-- One `runAudits` audit-table row, as the dict returned by
`cursor.fetchall()` in `database.py`.  Only the keys read by
`query_parser` and the schedule helpers are modelled:
`run_id`, `function_name`, `function_start_time` (minutes since an
arbitrary epoch), `records_written`, `records_read`, `status`. -/
structure Row where
  run_id : String
  function_name : String
  function_start_time : Nat
  records_written : Int
  records_read : Int
  status : String
deriving DecidableEq, Repr

/-- Python `s.upper()` on the ASCII status strings: uppercase each
character. -/
def pyUpper (s : String) : String :=
  String.mk (s.data.map Char.toUpper)

/-- The error-entry message built by `query_parser` (utils.py line 72) for a
records mismatch: `Records read != records written: {written} != {read}`. -/
def mismatchMessage (row : Row) : String :=
  "Records read != records written: " ++ toString row.records_written
    ++ " != " ++ toString row.records_read

/-- The error-entry message built by `query_parser` (utils.py line 80) for a
non-success status: `Status was not successful: {status}`. -/
def statusMessage (row : Row) : String :=
  "Status was not successful: " ++ row.status

/-- Embeds `query_parser` from `utils.py` (lines 52–83; the Lean name drops
the underscore).  The Python `for` loop appending to `errored_rows` is the
left fold below; each appended two-element list `[run_id, reason]` becomes a
pair.  The `function_name` argument is used by the source only in a log
line, so it does not influence the returned list. -/
def queryParser (query_result : List Row) (_function_name : String) :
    List (String × String) :=
  query_result.foldl
    (fun errored_rows row_data =>
      if row_data.records_written ≠ row_data.records_read then
        errored_rows ++ [(row_data.run_id, mismatchMessage row_data)]
      else if pyUpper row_data.status ≠ "SUCCESS_WITH_DATA" ∧
          pyUpper row_data.status ≠ "SUCCESS_NO_DATA" then
        errored_rows ++ [(row_data.run_id, statusMessage row_data)]
      else errored_rows)
    []

/-- Per-row classification as the spec states it: a records mismatch is
flagged with the mismatch reason (taking precedence over the status check),
otherwise a status outside the two success statuses (compared
case-insensitively) is flagged with the status reason, otherwise the row
contributes nothing. -/
def rowError (row : Row) : List (String × String) :=
  if row.records_written ≠ row.records_read then
    [(row.run_id, mismatchMessage row)]
  else if pyUpper row.status ≠ "SUCCESS_WITH_DATA" ∧
      pyUpper row.status ≠ "SUCCESS_NO_DATA" then
    [(row.run_id, statusMessage row)]
  else []

/-- `ACCEPTABLE_ERROR_THRESHOLD` from `config.py` (the float `0.8`,
modelled as the exact rational 8/10). -/
def ACCEPTABLE_ERROR_THRESHOLD : ℚ := 8 / 10

/-- `EMAIL_TOPIC_ARN` from `config.py`. -/
def EMAIL_TOPIC_ARN : String :=
  "arn:aws:sns:ap-southeast-2:542726313726:Email_Alerts"

/-- `FUNCTIONS_TO_CHECK` from `config.py`. -/
def FUNCTIONS_TO_CHECK : List String :=
  ["ENWL_power_scraper", "live_station_scraper"]

/-- Embeds `get_current_UTC_date` from `utils.py`: dates are modelled as
day counts, and the current UTC date is the explicit `today` parameter
standing for `datetime.now(timezone.utc)`. -/
def get_current_UTC_date (today : Nat) : Nat := today

/-- The prior-day window computed in `prior_day_calls` (utils.py lines
45–47): current UTC datetime minus one day, formatted as a date. -/
def prior_day (today : Nat) : Nat := today - 1

/-- The argument record of one `sns.publish` call made by
`publish_to_topic` (notification.py lines 21–36).  The published
`Message` interpolates `function_name`, `date` and `error_rate`
verbatim, and the `Subject` interpolates `date`; this record keeps those
arguments. -/
structure Notification where
  topicArn : String
  errorRate : ℚ
  date : Nat
  functionName : String
deriving DecidableEq, Repr

/-- Embeds `publish_to_topic` from `notification.py`: the effect of the
call is recorded as the `Notification` carrying its arguments. -/
def publish_to_topic (topic_ARN : String) (error_rate : ℚ) (date : Nat)
    (function_name : String) : Notification :=
  { topicArn := topic_ARN, errorRate := error_rate, date := date,
    functionName := function_name }

/-- The error rate computed on utils.py line 98:
`len(errored_rows) / len(query_result)`. -/
def error_rate (errored_rows : List (String × String))
    (query_result : List Row) : ℚ :=
  (errored_rows.length : ℚ) / (query_result.length : ℚ)

/-- Embeds `threshold_checker` from `utils.py` (lines 86–111).  When
`query_result` is empty the Python division raises `ZeroDivisionError`;
otherwise, if the error rate reaches `ACCEPTABLE_ERROR_THRESHOLD`, one
`publish_to_topic` call is made with `EMAIL_TOPIC_ARN`, the error rate,
`get_current_UTC_date()` and the function name, and the returned list
collects the published notifications (empty below the threshold). -/
def threshold_checker (errored_rows : List (String × String))
    (query_result : List Row) (function_name : String) (today : Nat) :
    Except PyError (List Notification) :=
  if query_result.length = 0 then
    Except.error PyError.zeroDivisionError
  else if ACCEPTABLE_ERROR_THRESHOLD ≤ error_rate errored_rows query_result then
    Except.ok [publish_to_topic EMAIL_TOPIC_ARN
      (error_rate errored_rows query_result) (get_current_UTC_date today)
      function_name]
  else
    Except.ok []

/-- Outcome of the body of a `with get_conn() as connection:` block:
it completes normally, raises the repo's `DatabaseError`, or raises any
other exception. -/
inductive BodyOutcome where
  | ok
  | dbError
  | pyExc
deriving DecidableEq, Repr

/-- How the whole `with` statement finishes. -/
inductive RunOutcome where
  | normal
  | raisesRuntimeError
  | raisesDatabaseError
  | raisesOther
deriving DecidableEq, Repr

/-- Observable trace of one use of the `get_conn` context manager:
whether a pooled connection was acquired, whether `commit`, `rollback`
and `close` were called on it, and how the `with` statement finished. -/
structure ConnTrace where
  acquired : Bool
  committed : Bool
  rolledBack : Bool
  closed : Bool
  outcome : RunOutcome
deriving DecidableEq, Repr

/-- Embeds `with get_conn() as connection: <body>` from `database.py`
(lines 60–82).  `get_conn` is a generator wrapped in
`contextlib.contextmanager`.  When `_POOL is None` the generator
executes `return` before its first `yield`, so `contextmanager.__enter__`
receives `StopIteration` from `next(gen)` and raises
`RuntimeError("generator didn't yield")`: no connection is touched and
the body never runs.  Otherwise a connection is acquired and the body
runs at the `yield`: on normal completion `connection.commit()` runs; a
`DatabaseError` thrown into the generator is caught, `connection.rollback()`
runs and the error is re-raised; any other exception is not caught (no
rollback) and propagates; the `finally` block closes (releases) the
connection on every one of those paths. -/
def with_get_conn (pool_initialized : Bool) (body : BodyOutcome) : ConnTrace :=
  if pool_initialized = false then
    { acquired := false, committed := false, rolledBack := false,
      closed := false, outcome := RunOutcome.raisesRuntimeError }
  else
    match body with
    | BodyOutcome.ok =>
      { acquired := true, committed := true, rolledBack := false,
        closed := true, outcome := RunOutcome.normal }
    | BodyOutcome.dbError =>
      { acquired := true, committed := false, rolledBack := true,
        closed := true, outcome := RunOutcome.raisesDatabaseError }
    | BodyOutcome.pyExc =>
      { acquired := true, committed := false, rolledBack := false,
        closed := true, outcome := RunOutcome.raisesOther }

/-- The state held by the module-global `_POOL` after a successful
`MySQLConnectionPool(...)` construction in `init_pool` (database.py
lines 32–54). -/
structure PoolConfig where
  pool_name : String
  pool_size : Nat
  db_config : List (String × String)
  autocommit : Bool
  charset : String
deriving DecidableEq, Repr

/-- Embeds `init_pool` from `database.py` (lines 32–54) as a transition
on the `_POOL` global: when the pool already exists the function returns
at once (the new configuration is ignored); otherwise the pool is built
from `db_config`, `autocommit=False`, `charset="utf8mb4"`,
`pool_name="live_station_pool"` and the environment-derived pool size. -/
def init_pool (pool : Option PoolConfig)
    (db_config : List (String × String)) (env_pool_size : Nat) :
    Option PoolConfig :=
  match pool with
  | some p => some p
  | none =>
    some { pool_name := "live_station_pool", pool_size := env_pool_size,
           db_config := db_config, autocommit := false, charset := "utf8mb4" }

/-- Python `pat in s` on strings restricted to what this model needs:
`leadsChars pat s` says the first characters of `s` spell `pat`. -/
def leadsChars : List Char → List Char → Bool
  | [], _ => true
  | _ :: _, [] => false
  | a :: as, b :: bs => a == b && leadsChars as bs

/-- Python substring test `pat in s` over character lists. -/
def hasSubChars (pat : List Char) : List Char → Bool
  | [] => leadsChars pat []
  | b :: bs => leadsChars pat (b :: bs) || hasSubChars pat bs

/-- Python `s.split(c)` for a one-character separator: always at least
one piece, empty pieces kept. -/
def splitOnChar (c : Char) : List Char → List (List Char)
  | [] => [[]]
  | a :: rest =>
    let r := splitOnChar c rest
    if a == c then [] :: r
    else
      match r with
      | [] => [[a]]
      | h :: t => (a :: h) :: t

/-- Python `s.rstrip(c)` for a one-character strip set: drop every
trailing occurrence of `c`. -/
def rstripChar (c : Char) (s : List Char) : List Char :=
  (s.reverse.dropWhile (fun a => a == c)).reverse

/-- Helper for `wsSplit`: accumulates the current word (reversed). -/
def wsSplitAux (cur : List Char) : List Char → List (List Char)
  | [] => if cur.isEmpty then [] else [cur.reverse]
  | a :: rest =>
    if a == ' ' then
      if cur.isEmpty then wsSplitAux [] rest
      else cur.reverse :: wsSplitAux [] rest
    else wsSplitAux (a :: cur) rest

/-- Python `s.split()` with no argument: split on runs of whitespace
(the schedule expressions here only contain spaces) and keep no empty
pieces. -/
def wsSplit (s : List Char) : List (List Char) :=
  wsSplitAux [] s

/-- The `while start_time < earliest_time + timedelta(days=1)` loop of
`generate_exp_times` (utils.py lines 180–186), over times in minutes:
starting from `start`, append the current time and advance by the
hardcoded `timedelta(minutes=3)` until the limit is reached. -/
def expTimesLoop (limit : Nat) (start : Nat) : List Nat :=
  if h : start < limit then
    start :: expTimesLoop limit (start + 3)
  else []
termination_by limit - start
decreasing_by omega

/-- Embeds `generate_exp_times` from `utils.py` (lines 151–188).  The
earliest prior-day call time (the `relative_start_time` database lookup)
and the EventBridge schedule expression (the
`get_schedule_expression(get_event_bridge_schedule())` AWS lookup) are
passed in as parameters; times are minutes, one day is 1440 minutes.
Faithful to the source: no `"rate"` substring raises
`NotImplementedError`; `rate_expression.split("(")[1]` raises
`IndexError` when there is no `(`; `rate_part.split()` must unpack into
exactly two names or `ValueError` is raised; a unit other than
`minutes` raises `NotImplementedError`; and the generation loop steps by
the literal `timedelta(minutes=3)` — the parsed `rate_value` is never
used. -/
def generate_exp_times (earliest : Nat) (rate_expression : String) :
    Except PyError (List Nat) :=
  if hasSubChars "rate".toList rate_expression.toList then
    match splitOnChar '(' rate_expression.toList with
    | _ :: part1 :: _ =>
      let rate_part := rstripChar ')' part1
      match wsSplit rate_part with
      | [_rate_value, rate] =>
        if rate ≠ "minutes".toList then
          Except.error PyError.notImplementedError
        else
          Except.ok (expTimesLoop (earliest + 1440) earliest)
      | _ => Except.error PyError.valueError
    | _ => Except.error PyError.indexError
  else
    Except.error PyError.notImplementedError

/-- The dict `{"status code": 200, "body": ...}` returned by `handler`
(main.py line 63); the Python key `"status code"` (with a space) is the
field `statusCode`. -/
structure HandlerResponse where
  statusCode : Nat
  body : String
deriving DecidableEq, Repr

/-- Embeds `prior_day_calls` from `utils.py` (lines 34–49): the database
query `return_function_rows(function_name, prior_date)` is the
environment `db`, applied to the function name and yesterday's UTC
date. -/
def prior_day_calls (db : String → Nat → Except PyError (List Row))
    (today : Nat) (function_name : String) : Except PyError (List Row) :=
  db function_name (prior_day today)

/-- One iteration of the handler's loop (main.py lines 56–59): fetch the
prior-day rows, classify them with `query_parser`, and run
`threshold_checker`; any exception propagates. -/
def check_function (db : String → Nat → Except PyError (List Row))
    (today : Nat) (function_name : String) :
    Except PyError (List Notification) :=
  match prior_day_calls db today function_name with
  | Except.error e => Except.error e
  | Except.ok query_result =>
    threshold_checker (queryParser query_result function_name)
      query_result function_name today

/-- The handler's `for function_name in FUNCTIONS_TO_CHECK` loop: the
functions are processed in list order, the published notifications are
collected, and the first exception aborts the remaining iterations. -/
def run_checks (db : String → Nat → Except PyError (List Row))
    (today : Nat) : List String → Except PyError (List Notification)
  | [] => Except.ok []
  | fn :: rest =>
    match check_function db today fn with
    | Except.error e => Except.error e
    | Except.ok ns =>
      match run_checks db today rest with
      | Except.error e => Except.error e
      | Except.ok ms => Except.ok (ns ++ ms)

/-- Embeds `handler` from `main.py` (lines 29–66).  `init` is the result
of `init_pool(get_db_config())` (a `SecretError` or pool failure there
propagates); then the loop over `FUNCTIONS_TO_CHECK` runs, and on full
success the fixed payload is returned.  The `except Exception` clause in
the source logs and re-raises, so it does not change the result. -/
def handler (init : Except PyError Unit)
    (db : String → Nat → Except PyError (List Row)) (today : Nat) :
    Except PyError (HandlerResponse × List Notification) :=
  match init with
  | Except.error e => Except.error e
  | Except.ok _ =>
    match run_checks db today FUNCTIONS_TO_CHECK with
    | Except.error e => Except.error e
    | Except.ok ns =>
      Except.ok
        ({ statusCode := 200,
           body := "Health check completed successfully" }, ns)

/-- Sample row: five records written, three read, non-success status —
both checks would fire, the mismatch one takes precedence (the spec's
second scenario). -/
def rowMismatch : Row :=
  { run_id := "r1", function_name := "fn_a", function_start_time := 0,
    records_written := 5, records_read := 3, status := "FAIL" }

/-- Sample row: matching counts but an unrecognized status. -/
def rowBadStatus : Row :=
  { run_id := "r2", function_name := "fn_a", function_start_time := 3,
    records_written := 4, records_read := 4, status := "FAILED" }

/-- Sample row that passes both checks (lowercase status, exercising the
case-insensitive comparison). -/
def rowPass : Row :=
  { run_id := "r3", function_name := "fn_a", function_start_time := 6,
    records_written := 2, records_read := 2, status := "success_with_data" }

/-- A database environment whose every query raises `DatabaseError`. -/
def dbAllError : String → Nat → Except PyError (List Row) :=
  fun _ _ => Except.error PyError.databaseError

/-- A database environment whose every query returns the single passing
row. -/
def dbAllPass : String → Nat → Except PyError (List Row) :=
  fun _ _ => Except.ok [rowPass]

/-- A sample already-initialized pool state. -/
def samplePool : PoolConfig :=
  { pool_name := "live_station_pool", pool_size := 4,
    db_config := [("host", "h"), ("user", "u")], autocommit := false,
    charset := "utf8mb4" }

theorem queryParser_step_eq (acc : List (String × String)) (r : Row) :
    (if r.records_written ≠ r.records_read then
        acc ++ [(r.run_id, mismatchMessage r)]
      else if pyUpper r.status ≠ "SUCCESS_WITH_DATA" ∧
          pyUpper r.status ≠ "SUCCESS_NO_DATA" then
        acc ++ [(r.run_id, statusMessage r)]
      else acc) = acc ++ rowError r := by
  by_cases h1 : r.records_written = r.records_read <;>
    by_cases h2 : pyUpper r.status ≠ "SUCCESS_WITH_DATA" ∧
      pyUpper r.status ≠ "SUCCESS_NO_DATA" <;>
    simp [rowError, h1, h2]

theorem queryParser_foldl (init : List (String × String)) (rows : List Row) :
    rows.foldl
      (fun errored_rows row_data =>
        if row_data.records_written ≠ row_data.records_read then
          errored_rows ++ [(row_data.run_id, mismatchMessage row_data)]
        else if pyUpper row_data.status ≠ "SUCCESS_WITH_DATA" ∧
            pyUpper row_data.status ≠ "SUCCESS_NO_DATA" then
          errored_rows ++ [(row_data.run_id, statusMessage row_data)]
        else errored_rows)
      init = init ++ rows.flatMap rowError := by
  induction rows generalizing init with
  | nil => simp
  | cons r rest ih =>
    rw [List.foldl_cons, queryParser_step_eq init r, ih, List.flatMap_cons,
      List.append_assoc]

theorem queryParser_eq_flatMap (rows : List Row) (fn : String) :
    queryParser rows fn = rows.flatMap rowError := by
  unfold queryParser
  simpa using queryParser_foldl [] rows

theorem rowError_length_le (row : Row) : (rowError row).length ≤ 1 := by
  unfold rowError
  split
  · exact le_refl 1
  · split
    · exact le_refl 1
    · exact Nat.zero_le 1

theorem queryParser_length_le (rows : List Row) (fn : String) :
    (queryParser rows fn).length ≤ rows.length := by
  rw [queryParser_eq_flatMap]
  induction rows with
  | nil => simp
  | cons r rest ih =>
    rw [List.flatMap_cons, List.length_append, List.length_cons]
    have := rowError_length_le r
    omega

theorem queryParser_all_pass (rows : List Row) (fn : String)
    (hall : ∀ row ∈ rows, row.records_written = row.records_read ∧
      (pyUpper row.status = "SUCCESS_WITH_DATA" ∨
       pyUpper row.status = "SUCCESS_NO_DATA")) :
    queryParser rows fn = [] := by
  rw [queryParser_eq_flatMap]
  induction rows with
  | nil => rfl
  | cons r rest ih =>
    rw [List.flatMap_cons]
    have hr := hall r (List.mem_cons_self r rest)
    have hrest := ih fun row hm => hall row (List.mem_cons_of_mem r hm)
    rw [hrest]
    rcases hr.2 with h2 | h2 <;> simp [rowError, hr.1, h2]

theorem expTimesLoop_step (limit start : Nat) (h : start < limit) :
    expTimesLoop limit start = start :: expTimesLoop limit (start + 3) := by
  rw [expTimesLoop]
  exact dif_pos h

/-- Claim C1: for every list of audit rows, `query_parser` flags each row
whose `records_written` differs from `records_read` with the mismatch
reason; otherwise a row whose status, compared case-insensitively, is
neither SUCCESS_WITH_DATA nor SUCCESS_NO_DATA is flagged with the
non-success-status reason; otherwise the row produces no error entry.
The mismatch check takes precedence regardless of status, and the output
is the order-preserving concatenation of the per-row classifications, so
the error entries appear in input order. -/
theorem C1_queryParser_rowwise (rows : List Row) (fn : String) :
    queryParser rows fn = rows.flatMap rowError ∧
    (∀ row : Row, row.records_written ≠ row.records_read →
      rowError row = [(row.run_id, mismatchMessage row)]) ∧
    (∀ row : Row, row.records_written = row.records_read →
      pyUpper row.status ≠ "SUCCESS_WITH_DATA" →
      pyUpper row.status ≠ "SUCCESS_NO_DATA" →
      rowError row = [(row.run_id, statusMessage row)]) ∧
    (∀ row : Row, row.records_written = row.records_read →
      (pyUpper row.status = "SUCCESS_WITH_DATA" ∨
       pyUpper row.status = "SUCCESS_NO_DATA") →
      rowError row = []) := by
  refine ⟨queryParser_eq_flatMap rows fn, ?_, ?_, ?_⟩
  · intro row h
    simp [rowError, h]
  · intro row h1 h2 h3
    simp [rowError, h1, h2, h3]
  · intro row h1 h2
    rcases h2 with h2 | h2 <;> simp [rowError, h1, h2]

/-- Witness for C1: the three sample rows exercise the mismatch branch
(which fires even though the status is also bad), the status branch, and
the passing branch. -/
theorem C1_queryParser_rowwise_witness :
    queryParser [rowMismatch, rowBadStatus, rowPass] "fn_a" =
      [rowMismatch, rowBadStatus, rowPass].flatMap rowError ∧
    rowError rowMismatch = [(rowMismatch.run_id, mismatchMessage rowMismatch)] ∧
    rowError rowBadStatus = [(rowBadStatus.run_id, statusMessage rowBadStatus)] ∧
    rowError rowPass = [] := by
  obtain ⟨h1, h2, h3, h4⟩ :=
    C1_queryParser_rowwise [rowMismatch, rowBadStatus, rowPass] "fn_a"
  exact ⟨h1, h2 rowMismatch (by decide),
    h3 rowBadStatus (by decide) (by decide) (by decide),
    h4 rowPass (by decide) (Or.inl (by decide))⟩

/-- Claim C10 (implicit): `query_parser` classifies each row
independently of the others and of the function-name argument — it is a
homomorphism for list append, returns the same entries for any two
function names, and each input row contributes at most one entry, so the
output is never longer than the input. -/
theorem C10_queryParser_independent (xs ys : List Row) (f g : String) :
    queryParser (xs ++ ys) f = queryParser xs f ++ queryParser ys f ∧
    queryParser xs f = queryParser xs g ∧
    (queryParser xs f).length ≤ xs.length := by
  refine ⟨?_, rfl, queryParser_length_le xs f⟩
  rw [queryParser_eq_flatMap, queryParser_eq_flatMap, queryParser_eq_flatMap,
    List.flatMap_append]

/-- Claim C3: for every non-empty query result, the error rate used by
`threshold_checker` equals the number of rows flagged by `query_parser`
divided by the total number of rows, and lies in the closed interval
[0, 1]; when every row has matching record counts and a success status,
the error sequence is empty and the rate is 0. -/
theorem C3_error_rate_bounds (rows : List Row) (fn : String)
    (h : rows ≠ []) :
    error_rate (queryParser rows fn) rows =
      ((queryParser rows fn).length : ℚ) / (rows.length : ℚ) ∧
    0 ≤ error_rate (queryParser rows fn) rows ∧
    error_rate (queryParser rows fn) rows ≤ 1 ∧
    ((∀ row ∈ rows, row.records_written = row.records_read ∧
        (pyUpper row.status = "SUCCESS_WITH_DATA" ∨
         pyUpper row.status = "SUCCESS_NO_DATA")) →
      queryParser rows fn = [] ∧
      error_rate (queryParser rows fn) rows = 0) := by
  have hpos : (0 : ℚ) < (rows.length : ℚ) := by
    have hl : 0 < rows.length := List.length_pos.mpr h
    exact_mod_cast hl
  refine ⟨rfl, ?_, ?_, ?_⟩
  · exact div_nonneg (by positivity) (le_of_lt hpos)
  · show ((queryParser rows fn).length : ℚ) / (rows.length : ℚ) ≤ 1
    rw [div_le_one hpos]
    exact_mod_cast queryParser_length_le rows fn
  · intro hall
    have hempty := queryParser_all_pass rows fn hall
    refine ⟨hempty, ?_⟩
    show ((queryParser rows fn).length : ℚ) / (rows.length : ℚ) = 0
    rw [hempty]
    simp

/-- Witness for C3 at the single passing row. -/
theorem C3_error_rate_bounds_witness :
    error_rate (queryParser [rowPass] "fn_a") [rowPass] ≤ 1 :=
  (C3_error_rate_bounds [rowPass] "fn_a" (List.cons_ne_nil _ _)).2.2.1

/-- Claim C4: for an empty row set the error-rate computation in
`threshold_checker` divides by zero — the call raises
`ZeroDivisionError` and publishes no notification, rather than treating
the case as rate 0 or skipping the function with a success result. -/
theorem C4_threshold_checker_empty (errored : List (String × String))
    (fn : String) (today : Nat) :
    threshold_checker errored [] fn today =
      Except.error PyError.zeroDivisionError ∧
    ∀ ns : List Notification,
      threshold_checker errored [] fn today ≠ Except.ok ns := by
  have h0 : threshold_checker errored [] fn today =
      Except.error PyError.zeroDivisionError := rfl
  exact ⟨h0, fun ns hn => by rw [h0] at hn; exact Except.noConfusion hn⟩

/-- Claim C2 counterexample: with the check run on day 20 (so the
prior-day window is day 19), a single mismatching row yields rate 1 and
one notification, but the date that notification carries is the current
UTC date 20 — not the prior-day window's date 19 the claim asserts. -/
theorem C2_counterexample :
    threshold_checker (queryParser [rowMismatch] "fn_a") [rowMismatch]
      "fn_a" 20 =
      Except.ok [publish_to_topic EMAIL_TOPIC_ARN
        (error_rate (queryParser [rowMismatch] "fn_a") [rowMismatch])
        (get_current_UTC_date 20) "fn_a"] ∧
    (publish_to_topic EMAIL_TOPIC_ARN
      (error_rate (queryParser [rowMismatch] "fn_a") [rowMismatch])
      (get_current_UTC_date 20) "fn_a").date = 20 ∧
    prior_day 20 = 19 ∧
    (publish_to_topic EMAIL_TOPIC_ARN
      (error_rate (queryParser [rowMismatch] "fn_a") [rowMismatch])
      (get_current_UTC_date 20) "fn_a").date ≠ prior_day 20 := by
  refine ⟨?_, rfl, rfl, by decide⟩
  rw [threshold_checker, if_neg (by simp), if_pos]
  have hq : queryParser [rowMismatch] "fn_a" =
      [("r1", mismatchMessage rowMismatch)] := by decide
  rw [hq]
  unfold error_rate
  norm_num [ACCEPTABLE_ERROR_THRESHOLD]

/-- Claim C2 (amended): for every function check with a non-empty row
set, an error rate at or above the 0.8 threshold publishes exactly one
notification, whose message carries that function's name and the current
UTC date at check time (the day after the prior-day window checked, not
yesterday's date); a rate strictly below 0.8 publishes none. -/
theorem C2_threshold_notify (rows : List Row) (fn : String) (today : Nat)
    (h : rows ≠ []) :
    (ACCEPTABLE_ERROR_THRESHOLD ≤ error_rate (queryParser rows fn) rows →
      threshold_checker (queryParser rows fn) rows fn today =
        Except.ok [publish_to_topic EMAIL_TOPIC_ARN
          (error_rate (queryParser rows fn) rows)
          (get_current_UTC_date today) fn]) ∧
    (error_rate (queryParser rows fn) rows < ACCEPTABLE_ERROR_THRESHOLD →
      threshold_checker (queryParser rows fn) rows fn today =
        Except.ok []) := by
  have hlen : ¬ rows.length = 0 := by
    simpa [List.length_eq_zero] using h
  constructor
  · intro hrate
    rw [threshold_checker, if_neg hlen, if_pos hrate]
  · intro hrate
    rw [threshold_checker, if_neg hlen, if_neg (not_le.mpr hrate)]

/-- Witness for C2 (amended): the all-mismatch row gives rate 1 ≥ 0.8
and exactly one notification dated with the current UTC date. -/
theorem C2_threshold_notify_witness :
    threshold_checker (queryParser [rowMismatch] "fn_a") [rowMismatch]
      "fn_a" 20 =
      Except.ok [publish_to_topic EMAIL_TOPIC_ARN
        (error_rate (queryParser [rowMismatch] "fn_a") [rowMismatch])
        (get_current_UTC_date 20) "fn_a"] :=
  (C2_threshold_notify [rowMismatch] "fn_a" 20 (List.cons_ne_nil _ _)).1
    (by
      have hq : queryParser [rowMismatch] "fn_a" =
          [("r1", mismatchMessage rowMismatch)] := by decide
      rw [hq]
      unfold error_rate
      norm_num [ACCEPTABLE_ERROR_THRESHOLD])

/-- Claim C5: on an initialized pool, the `get_conn` scope commits the
transaction on normal completion; on a `DatabaseError` raised inside the
scope it rolls back and re-raises the `DatabaseError`; any other
exception propagates without a rollback; and in every one of these
outcomes a connection was acquired and is released (closed) back to the
pool. -/
theorem C5_get_conn_transaction (p : Bool) (h : p = true) :
    ((with_get_conn p BodyOutcome.ok).committed = true ∧
     (with_get_conn p BodyOutcome.ok).rolledBack = false ∧
     (with_get_conn p BodyOutcome.ok).outcome = RunOutcome.normal) ∧
    ((with_get_conn p BodyOutcome.dbError).committed = false ∧
     (with_get_conn p BodyOutcome.dbError).rolledBack = true ∧
     (with_get_conn p BodyOutcome.dbError).outcome =
       RunOutcome.raisesDatabaseError) ∧
    ((with_get_conn p BodyOutcome.pyExc).rolledBack = false ∧
     (with_get_conn p BodyOutcome.pyExc).outcome = RunOutcome.raisesOther) ∧
    (∀ b : BodyOutcome, (with_get_conn p b).acquired = true ∧
      (with_get_conn p b).closed = true) := by
  subst h
  refine ⟨⟨rfl, rfl, rfl⟩, ⟨rfl, rfl, rfl⟩, ⟨rfl, rfl⟩, ?_⟩
  intro b
  cases b <;> exact ⟨rfl, rfl⟩

/-- Witness for C5: on the initialized pool, a `DatabaseError` in the
scope rolls the transaction back and still releases the connection. -/
theorem C5_get_conn_transaction_witness :
    (with_get_conn true BodyOutcome.dbError).rolledBack = true ∧
    (with_get_conn true BodyOutcome.dbError).closed = true :=
  ⟨((C5_get_conn_transaction true rfl).2.1).2.1,
   ((C5_get_conn_transaction true rfl).2.2.2 BodyOutcome.dbError).2⟩

/-- Claim C6 counterexample: with the pool uninitialized, entering the
`get_conn` scope does not complete without raising — `contextmanager`
turns the generator's pre-yield `return` into a `RuntimeError`
(generator did not yield), so the claimed silent no-op is refuted. -/
theorem C6_counterexample :
    (with_get_conn false BodyOutcome.ok).outcome =
      RunOutcome.raisesRuntimeError ∧
    (with_get_conn false BodyOutcome.ok).outcome ≠ RunOutcome.normal :=
  ⟨rfl, by decide⟩

/-- Claim C6 (amended): if the pool has not been initialized, entering
the `get_conn` scope raises a `RuntimeError` from the context-manager
machinery (the generator returns before yielding) and performs no
database operation: no connection is acquired, committed, rolled back or
closed, whatever the body would have done. -/
theorem C6_uninit_pool (b : BodyOutcome) :
    with_get_conn false b =
      { acquired := false, committed := false, rolledBack := false,
        closed := false, outcome := RunOutcome.raisesRuntimeError } := by
  cases b <;> rfl

/-- Claim C8: `init_pool` is idempotent — whenever the pool is already
initialized a further call with any configuration returns without
changing it, so calling `init_pool` twice is observationally equal to
calling it once. -/
theorem C8_init_pool_idempotent (s : Option PoolConfig)
    (cfg1 cfg2 : List (String × String)) (n1 n2 : Nat) :
    (∀ p : PoolConfig, s = some p → init_pool s cfg2 n2 = s) ∧
    init_pool (init_pool s cfg1 n1) cfg2 n2 = init_pool s cfg1 n1 := by
  constructor
  · intro p hp
    subst hp
    rfl
  · cases s <;> rfl

/-- Witness for C8: re-initializing the sample pool with a different
configuration and pool size leaves it unchanged. -/
theorem C8_init_pool_idempotent_witness :
    init_pool (some samplePool) [("host", "other")] 8 = some samplePool :=
  (C8_init_pool_idempotent (some samplePool) [] [("host", "other")] 4 8).1
    samplePool rfl

/-- Claim C7: the handler processes `FUNCTIONS_TO_CHECK` in order, for
each one fetching prior-day rows, classifying them and running the
threshold check; when both functions complete it returns the fixed
payload (status code 200, body "Health check completed successfully")
with the collected notifications; when the first function's check raises
the error propagates, and the result does not depend on the database's
behavior for the second function (no per-function isolation); when the
second function's check raises, that error propagates too. -/
theorem C7_handler_flow (db : String → Nat → Except PyError (List Row))
    (today : Nat) :
    (∀ ns1 ns2 : List Notification,
      check_function db today "ENWL_power_scraper" = Except.ok ns1 →
      check_function db today "live_station_scraper" = Except.ok ns2 →
      handler (Except.ok ()) db today =
        Except.ok ({ statusCode := 200, body := "Health check completed successfully" }, ns1 ++ ns2)) ∧
    (∀ e : PyError,
      check_function db today "ENWL_power_scraper" = Except.error e →
      handler (Except.ok ()) db today = Except.error e ∧
      ∀ db2 : String → Nat → Except PyError (List Row),
        (∀ d : Nat, db2 "ENWL_power_scraper" d = db "ENWL_power_scraper" d) →
        handler (Except.ok ()) db2 today = Except.error e) ∧
    (∀ (ns1 : List Notification) (e : PyError),
      check_function db today "ENWL_power_scraper" = Except.ok ns1 →
      check_function db today "live_station_scraper" = Except.error e →
      handler (Except.ok ()) db today = Except.error e) := by
  refine ⟨?_, ?_, ?_⟩
  · intro ns1 ns2 h1 h2
    simp [handler, run_checks, FUNCTIONS_TO_CHECK, h1, h2]
  · intro e h1
    constructor
    · simp [handler, run_checks, FUNCTIONS_TO_CHECK, h1]
    · intro db2 hagree
      have h2 : check_function db2 today "ENWL_power_scraper" =
          Except.error e := by
        rw [check_function, prior_day_calls, hagree (prior_day today)]
        rw [check_function, prior_day_calls] at h1
        exact h1
      simp [handler, run_checks, FUNCTIONS_TO_CHECK, h2]
  · intro ns1 e h1 h2
    simp [handler, run_checks, FUNCTIONS_TO_CHECK, h1, h2]

/-- Witness for C7: an all-passing database produces the fixed success
payload; a database that always raises `DatabaseError` makes the handler
fail with that error. -/
theorem C7_handler_flow_witness :
    handler (Except.ok ()) dbAllPass 20 =
      Except.ok ({ statusCode := 200, body := "Health check completed successfully" }, ([] : List Notification) ++ []) ∧
    handler (Except.ok ()) dbAllError 20 =
      Except.error PyError.databaseError := by
  have hre : rowError rowPass = [] := by decide
  have hchk : ∀ fn : String, check_function dbAllPass 20 fn = Except.ok [] := by
    intro fn
    have hq : queryParser [rowPass] fn = [] := by
      rw [queryParser_eq_flatMap]
      simp [hre]
    simp only [check_function, prior_day_calls, dbAllPass]
    rw [threshold_checker, if_neg (by simp), if_neg]
    rw [hq]
    unfold error_rate
    norm_num [ACCEPTABLE_ERROR_THRESHOLD]
  refine ⟨(C7_handler_flow dbAllPass 20).1 [] [] (hchk _) (hchk _), ?_⟩
  exact ((C7_handler_flow dbAllError 20).2.1 PyError.databaseError rfl).1

/-- Claim C9, evaluated at the failing input: cron expressions and
non-minute rates do raise `NotImplementedError` as claimed, but for the
supported `rate(5 minutes)` expression (earliest prior-day call at time
0) the generated call times step by the hardcoded 3 minutes — 0, 3, 6,
9, … — not by the expression's 5-minute interval; the parsed rate value
is ignored entirely, as the identical result for `rate(7 minutes)`
shows. -/
theorem C9_generate_exp_times_eval :
    generate_exp_times 0 "cron(0 12 * * ? *)" =
      Except.error PyError.notImplementedError ∧
    generate_exp_times 0 "rate(2 hours)" =
      Except.error PyError.notImplementedError ∧
    generate_exp_times 0 "rate(5 minutes)" =
      Except.ok (expTimesLoop 1440 0) ∧
    generate_exp_times 0 "rate(7 minutes)" =
      generate_exp_times 0 "rate(5 minutes)" ∧
    (expTimesLoop 1440 0).take 4 = [0, 3, 6, 9] ∧
    (expTimesLoop 1440 0).take 4 ≠ [0, 5, 10, 15] := by
  have e0 := expTimesLoop_step 1440 0 (by norm_num)
  have e3 := expTimesLoop_step 1440 3 (by norm_num)
  have e6 := expTimesLoop_step 1440 6 (by norm_num)
  have e9 := expTimesLoop_step 1440 9 (by norm_num)
  refine ⟨rfl, rfl, rfl, rfl, ?_, ?_⟩
  · simp [e0, e3, e6, e9]
  · simp [e0, e3, e6, e9]
